import Mathlib

/- Verification development for python/helpers/settings.py: a shallow embedding
   of the settings module (records, normalization, UI schema conversion,
   persistence and the KEY=VALUE codec) together with proofs about it.

   Modelling conventions:
   - A Python runtime value that can appear in a settings record (as parsed
     from JSON or produced by the module) is modelled by `Value`.  Float
     literals are modelled as exact rationals; the module performs no float
     arithmetic, only type coercions, so only coercion behaviour matters.
   - Python dicts are modelled as ordered association lists; updating an
     existing key keeps its position, inserting a new key appends, matching
     CPython insertion-order semantics.  Dict keys are strings (as in the
     declared `dict[str, str]` fields and JSON objects).
   - Presentation-only attributes of schema fields (title, description) are
     omitted; ids, types, values, options and numeric bounds are kept.
   - External collaborators (dotenv store, runtime flags, models.get_api_key,
     directory listings) are passed in as an explicit environment. -/

inductive Value where
  | vnull : Value
  | vbool : Bool → Value
  | vint : Int → Value
  | vfloat : ℚ → Value
  | vstr : String → Value
  | vlist : List Value → Value
  | vdict : List (String × Value) → Value

mutual

/-- Boolean equality on `Value`, needed because automatic deriving does not
    handle the nested lists. -/
def vbeq : Value → Value → Bool
  | .vnull, .vnull => true
  | .vbool a, .vbool b => a == b
  | .vint a, .vint b => a == b
  | .vfloat a, .vfloat b => a == b
  | .vstr a, .vstr b => a == b
  | .vlist l, .vlist m => vbeqL l m
  | .vdict d, .vdict e => vbeqD d e
  | _, _ => false

def vbeqL : List Value → List Value → Bool
  | [], [] => true
  | a :: l, b :: m => vbeq a b && vbeqL l m
  | _, _ => false

def vbeqD : List (String × Value) → List (String × Value) → Bool
  | [], [] => true
  | (k, a) :: l, (k2, b) :: m => k == k2 && vbeq a b && vbeqD l m
  | _, _ => false

end

mutual

theorem vbeq_iff : ∀ a b, vbeq a b = true ↔ a = b
  | .vnull, b => by cases b <;> simp [vbeq]
  | .vbool a, b => by cases b <;> simp [vbeq]
  | .vint a, b => by cases b <;> simp [vbeq]
  | .vfloat a, b => by cases b <;> simp [vbeq]
  | .vstr a, b => by cases b <;> simp [vbeq]
  | .vlist l, b => by
      cases b <;> simp [vbeq]
      exact vbeqL_iff l _
  | .vdict d, b => by
      cases b <;> simp [vbeq]
      exact vbeqD_iff d _

theorem vbeqL_iff : ∀ l m, vbeqL l m = true ↔ l = m
  | [], m => by cases m <;> simp [vbeqL]
  | a :: l, m => by
      cases m with
      | nil => simp [vbeqL]
      | cons b m => simp [vbeqL, vbeq_iff a b, vbeqL_iff l m]

theorem vbeqD_iff : ∀ d e, vbeqD d e = true ↔ d = e
  | [], e => by cases e <;> simp [vbeqD]
  | (k, a) :: d, e => by
      cases e with
      | nil => simp [vbeqD]
      | cons p e =>
        cases p with
        | mk k2 b => simp [vbeqD, vbeq_iff a b, vbeqD_iff d e, and_assoc]

end

instance : DecidableEq Value := fun a b => decidable_of_iff _ (vbeq_iff a b)

/-- A Python dict with string keys, in insertion order. -/
abbrev PyDict := List (String × Value)

/-- Lookup in an ordered association list (first matching key). -/
def assocLookup {α : Type} (l : List (String × α)) (k : String) : Option α :=
  match l with
  | [] => none
  | (k2, v) :: t => if k2 = k then some v else assocLookup t k

/-- Python dict assignment `d[k] = v`: update the first occurrence of `k`
    in place, else append at the end. -/
def assocSet {α : Type} (l : List (String × α)) (k : String) (v : α) :
    List (String × α) :=
  match l with
  | [] => [(k, v)]
  | (k2, w) :: t => if k2 = k then (k2, v) :: t else (k2, w) :: assocSet t k v

/-- Python truthiness (`bool(x)`). -/
def pyTruthy : Value → Bool
  | .vnull => false
  | .vbool b => b
  | .vint n => n ≠ 0
  | .vfloat q => q.num ≠ 0
  | .vstr s => s ≠ ""
  | .vlist l => !l.isEmpty
  | .vdict d => !d.isEmpty

/-- Characters accepted by Python `str.strip()` and the regex class `\s`. -/
def isPySpace (c : Char) : Bool :=
  c = ' ' || c = '\t' || c = '\n' || c = '\x0d' || c = '\x0b' || c = '\x0c'

/-- Rendering of a rational that stands for a Python float; `str()` on floats
    is only reachable for ill-typed inputs to string-typed keys and no claim
    depends on the exact text, so a simple exact rendering is used. -/
def ratStr (q : ℚ) : String :=
  if q.den = 1 then toString q.num ++ ".0"
  else toString q.num ++ "/" ++ toString q.den

mutual

/-- Python `str(x)` for the modelled values. -/
def pyStr : Value → String
  | .vnull => "None"
  | .vbool true => "True"
  | .vbool false => "False"
  | .vint n => toString n
  | .vfloat q => ratStr q
  | .vstr s => s
  | .vlist l => "[" ++ pyStrList l ++ "]"
  | .vdict d => "\x7b" ++ pyStrDict d ++ "\x7d"

def pyStrList : List Value → String
  | [] => ""
  | [x] => pyStr x
  | x :: y :: xs => pyStr x ++ ", " ++ pyStrList (y :: xs)

def pyStrDict : List (String × Value) → String
  | [] => ""
  | [(k, v)] => k ++ ": " ++ pyStr v
  | (k, v) :: p :: xs => k ++ ": " ++ pyStr v ++ ", " ++ pyStrDict (p :: xs)

end

/-- Decimal digits to a natural number. -/
def digitsVal (l : List Char) : Nat :=
  l.foldl (fun a c => a * 10 + (c.toNat - 48)) 0

/-- Python `int(s)` on a string: strip whitespace, optional sign, decimal
    digits.  (Underscore digit separators are not modelled.) -/
def parseIntPy (s : String) : Option Int :=
  let t := ((s.toList.dropWhile isPySpace).reverse.dropWhile isPySpace).reverse
  match t with
  | [] => none
  | c :: rest =>
    let signed : Bool × List Char :=
      if c = '-' then (true, rest)
      else if c = '+' then (false, rest) else (false, c :: rest)
    if signed.2 ≠ [] ∧ signed.2.all (·.isDigit) then
      some ((if signed.1 then -1 else 1) * (digitsVal signed.2 : Int))
    else none

/-- Python `float(s)` on a string: strip whitespace, optional sign, decimal
    digits with an optional fractional part.  (Exponents, `inf` and `nan`
    are not modelled; the rational model covers only finite decimals.) -/
def parseFloatPy (s : String) : Option ℚ :=
  let t := ((s.toList.dropWhile isPySpace).reverse.dropWhile isPySpace).reverse
  let signed : Bool × List Char :=
    match t with
    | '-' :: rest => (true, rest)
    | '+' :: rest => (false, rest)
    | _ => (false, t)
  let body := signed.2
  let intPart := body.takeWhile (·.isDigit)
  let rest := body.drop intPart.length
  let sgn : Int := if signed.1 then -1 else 1
  match rest with
  | [] =>
    if intPart ≠ [] then some (mkRat (sgn * (digitsVal intPart : Int)) 1)
    else none
  | '.' :: frac =>
    if frac.all (·.isDigit) ∧ (intPart ≠ [] ∨ frac ≠ []) then
      some (mkRat
        (sgn * ((digitsVal intPart : Int) * (10 : Int) ^ frac.length +
          (digitsVal frac : Int)))
        ((10 : Nat) ^ frac.length))
    else none
  | _ => none

/-- Truncation toward zero, as Python `int(float)`: `Int.div` is Lean's
    T-division (`Int.tdiv (-7) 2 = -3`, like `int(-3.5) = -3`). -/
def ratTrunc (q : ℚ) : Int := Int.tdiv q.num (q.den : Int)

/-- Python `int(x)`: `none` models the `ValueError`/`TypeError` raised on
    inconvertible values. -/
def coerceInt : Value → Option Value
  | .vint n => some (.vint n)
  | .vbool b => some (.vint (if b then 1 else 0))
  | .vfloat q => some (.vint (ratTrunc q))
  | .vstr s => (parseIntPy s).map .vint
  | _ => none

/-- Python `float(x)`. -/
def coerceFloat : Value → Option Value
  | .vfloat q => some (.vfloat q)
  | .vint n => some (.vfloat (mkRat n 1))
  | .vbool b => some (.vfloat (mkRat (if b then 1 else 0) 1))
  | .vstr s => (parseFloatPy s).map .vfloat
  | _ => none

/-- One element of a key-value sequence fed to Python `dict(...)`: a two
    element sequence yields a pair (two-character strings and two-entry dicts
    iterate to their characters resp. keys); anything else raises. -/
def dictPairOf : Value → Option (String × Value)
  | .vlist [.vstr k, v] => some (k, v)
  | .vstr s =>
    match s.toList with
    | [a, b] => some (String.mk [a], .vstr (String.mk [b]))
    | _ => none
  | .vdict [(k1, _), (k2, _)] => some (k1, .vstr k2)
  | _ => none

/-- Python `dict(x)`: a dict is shallow-copied (content-equal), an iterable of
    key/value pairs is inserted in order, everything else raises. -/
def coerceDict : Value → Option Value
  | .vdict d => some (.vdict d)
  | .vstr s => if s = "" then some (.vdict []) else none
  | .vlist l =>
    (l.foldl
      (fun acc e => acc.bind (fun d => (dictPairOf e).map
        (fun kv => assocSet d kv.1 kv.2)))
      (some ([] : List (String × Value)))).map .vdict
  | _ => none

/-- `type(default)(x)`: coercion of `x` to the runtime type of the default
    value, as performed by `normalize_settings`.  `none` models a raised
    `ValueError`/`TypeError`.  No canonical default is `None` or a list, so
    those two shapes never drive a coercion. -/
def coerceLike (dv : Value) (x : Value) : Option Value :=
  match dv with
  | .vstr _ => some (.vstr (pyStr x))
  | .vint _ => coerceInt x
  | .vfloat _ => coerceFloat x
  | .vbool _ => some (.vbool (pyTruthy x))
  | .vdict _ => coerceDict x
  | _ => none

/-- The canonical default settings record (`get_default_settings`), with
    `ModelProvider.OPENAI.name = "OPENAI"`, in source declaration order. -/
def get_default_settings : PyDict :=
  [("chat_model_provider", .vstr "OPENAI"),
   ("chat_model_name", .vstr "gpt-4o"),
   ("chat_model_temperature", .vfloat (mkRat 0 1)),
   ("chat_model_kwargs", .vdict []),
   ("chat_model_ctx_length", .vint 120000),
   ("chat_model_ctx_history", .vfloat (mkRat 7 10)),
   ("chat_model_rl_requests", .vint 0),
   ("chat_model_rl_input", .vint 0),
   ("chat_model_rl_output", .vint 0),
   ("util_model_provider", .vstr "OPENAI"),
   ("util_model_name", .vstr "gpt-4o-mini"),
   ("util_model_temperature", .vfloat (mkRat 0 1)),
   ("util_model_ctx_length", .vint 120000),
   ("util_model_ctx_input", .vfloat (mkRat 7 10)),
   ("util_model_kwargs", .vdict []),
   ("util_model_rl_requests", .vint 60),
   ("util_model_rl_input", .vint 0),
   ("util_model_rl_output", .vint 0),
   ("embed_model_provider", .vstr "OPENAI"),
   ("embed_model_name", .vstr "text-embedding-3-small"),
   ("embed_model_kwargs", .vdict []),
   ("embed_model_rl_requests", .vint 0),
   ("embed_model_rl_input", .vint 0),
   ("browser_model_provider", .vstr "OPENAI"),
   ("browser_model_name", .vstr "gpt-4o"),
   ("browser_model_vision", .vbool false),
   ("browser_model_temperature", .vfloat (mkRat 0 1)),
   ("browser_model_kwargs", .vdict []),
   ("api_keys", .vdict []),
   ("auth_login", .vstr ""),
   ("auth_password", .vstr ""),
   ("root_password", .vstr ""),
   ("agent_prompts_subdir", .vstr "default"),
   ("agent_memory_subdir", .vstr "default"),
   ("agent_knowledge_subdir", .vstr "custom"),
   ("rfc_auto_docker", .vbool true),
   ("rfc_url", .vstr "localhost"),
   ("rfc_password", .vstr ""),
   ("rfc_port_http", .vint 55080),
   ("rfc_port_ssh", .vint 55022),
   ("stt_model_size", .vstr "base"),
   ("stt_language", .vstr "en"),
   ("stt_silence_threshold", .vfloat (mkRat 3 10)),
   ("stt_silence_duration", .vint 1000),
   ("stt_waiting_timeout", .vint 2000)]

/-- One iteration of the `normalize_settings` loop over a default entry:
    absent key takes the default, present key is coerced to the default type
    with silent fallback to the default on failure. -/
def normStep (c : PyDict) (kv : String × Value) : PyDict :=
  match assocLookup c kv.1 with
  | none => assocSet c kv.1 kv.2
  | some cur => assocSet c kv.1 ((coerceLike kv.2 cur).getD kv.2)

/-- `normalize_settings`: merge a possibly-partial record against the
    defaults.  (`settings.copy()` is value semantics here.)  This is the
    value of the call on the inputs where no coercion raises an uncaught
    exception; `normalize_settings_exc` below carries that error path. -/
def normalize_settings (settings : PyDict) : PyDict :=
  get_default_settings.foldl normStep settings

/-- The least natural number whose conversion to a double overflows,
    `2^1024 - 2^970` as a literal: the largest finite double is
    `2^1024 - 2^971` and the halfway point `2^1024 - 2^970` rounds up to
    `2^1024` under round-half-even (`floatMaxBound_eq` checks the
    literal). -/
def floatMaxBound : Nat :=
  179769313486231580793728971405303415079934132710037826936173778980444968292764750946649017977587207096330286416692887910946555547851940402630657488671505820681908902000708383676273854845817711531764475730270069855571366959622842914819860834936475292719074168444365510704342711559699508093042880177904174497792

/-- Python `float(n)` on an int raises `OverflowError` when the correctly
    rounded value exceeds the largest double, i.e. when
    `|n| ≥ 2^1024 - 2^970`. -/
def intFloatOverflow (n : Int) : Bool :=
  decide (floatMaxBound ≤ n.natAbs)

/-- `float(x)` with its exception kinds split: `.error` is an exception that
    `except (ValueError, TypeError)` does not catch (`OverflowError` on an
    out-of-range int — `OverflowError` subclasses `ArithmeticError`),
    `.ok none` a caught one, `.ok (some w)` success.  `float(str)` saturates
    to `inf` rather than raising, and `bool`/`float` inputs convert exactly,
    so the int branch is the only uncaught path. -/
def coerceFloatE : Value → Except String (Option Value)
  | .vint n =>
    if intFloatOverflow n then .error "OverflowError"
    else .ok (some (.vfloat (mkRat n 1)))
  | x => .ok (coerceFloat x)

/-- `type(default)(x)` with the uncaught error path: `int`, `str`, `bool`
    and `dict` coercions raise only `ValueError`/`TypeError` on the
    representable values (`int(float)` would also need an `inf`/`nan`
    argument, which the rational float model excludes), so only a
    float-typed default can raise past the `except` clause. -/
def coerceLikeE (dv x : Value) : Except String (Option Value) :=
  match dv with
  | .vfloat _ => coerceFloatE x
  | _ => .ok (coerceLike dv x)

/-- One iteration of the `normalize_settings` loop with the exception path:
    an uncaught exception aborts the whole call. -/
def normStepE (acc : Except String PyDict) (kv : String × Value) :
    Except String PyDict :=
  match acc with
  | .error e => .error e
  | .ok c =>
    match assocLookup c kv.1 with
    | none => .ok (assocSet c kv.1 kv.2)
    | some cur =>
      match coerceLikeE kv.2 cur with
      | .error e => .error e
      | .ok o => .ok (assocSet c kv.1 (o.getD kv.2))

/-- `normalize_settings` with the exception path: the loop body's
    `except (ValueError, TypeError)` does not catch `OverflowError`, so an
    out-of-range int at a float-typed key propagates out of the call. -/
def normalize_settings_exc (settings : PyDict) : Except String PyDict :=
  get_default_settings.foldl normStepE (.ok settings)

instance exceptDecEq {α β : Type} [DecidableEq α] [DecidableEq β] :
    DecidableEq (Except α β) := fun x y =>
  match x, y with
  | .error a, .error b =>
    if h : a = b then .isTrue (by rw [h])
    else .isFalse (fun he => h (Except.error.inj he))
  | .ok a, .ok b =>
    if h : a = b then .isTrue (by rw [h])
    else .isFalse (fun he => h (Except.ok.inj he))
  | .error _, .ok _ => .isFalse (fun he => Except.noConfusion he)
  | .ok _, .error _ => .isFalse (fun he => Except.noConfusion he)

/-- Split a character list at every newline (like `str.split("\n")`). -/
def splitNl : List Char → List (List Char)
  | [] => [[]]
  | '\n' :: t => [] :: splitNl t
  | c :: t =>
    match splitNl t with
    | [] => [[c]]
    | h :: r => (c :: h) :: r

/-- Python `str.splitlines()` restricted to `\n` separators (the only line
    break the codec ever produces or receives): split at newlines, with no
    empty trailing line for a trailing newline and no lines at all for the
    empty string. -/
def splitlinesPy (s : String) : List String :=
  let cs := s.toList
  if cs = [] then []
  else
    let parts := (splitNl cs).map String.mk
    if cs.getLast? = some '\n' then parts.dropLast else parts

/-- `"\n".join(lines)`. -/
def joinNl : List String → String
  | [] => ""
  | [x] => x
  | x :: y :: r => x ++ "\n" ++ joinNl (y :: r)

/-- `str.endswith` via character lists. -/
def strEndsWithPy (s suf : String) : Bool :=
  suf.toList.isSuffixOf s.toList

/-- `str.startswith` via character lists. -/
def strStartsWithPy (s pre : String) : Bool :=
  pre.toList.isPrefixOf s.toList

/-- Python `str.strip()` over the character list of a string. -/
def stripWS (l : List Char) : List Char :=
  ((l.dropWhile isPySpace).reverse.dropWhile isPySpace).reverse

/-- Python `str.strip(c)` for a single character. -/
def stripChar (c : Char) (l : List Char) : List Char :=
  ((l.dropWhile (· = c)).reverse.dropWhile (· = c)).reverse

/-- The single-quote character, kept out of literals for hygiene. -/
def squote : Char := Char.ofNat 39

/-- The double-quote character. -/
def dquote : Char := Char.ofNat 34

/-- Index of the first `=` in a character list. -/
def firstEqIdx : List Char → Option Nat
  | [] => none
  | c :: t => if c = '=' then some 0 else (firstEqIdx t).map (· + 1)

/-- One anchored attempt of the pattern `\s*([^#][^=]*)\s*=\s*(.*)` with the
    leading `\s*` consuming exactly `p` characters: the char at `p` must not
    be `#`, the greedy `[^=]*` runs to the first later `=`, and the rest is
    the raw value (its surrounding `\s*` is subsumed by the strip applied to
    the value afterwards). -/
def kvAttempt (cs : List Char) (p : Nat) : Option (List Char × List Char) :=
  match cs.drop p with
  | [] => none
  | c :: rest =>
    if c = '#' then none
    else
      match firstEqIdx rest with
      | none => none
      | some j => some ((cs.drop p).take (j + 1), cs.drop (p + j + 2))

/-- Backtracking over the length of the leading `\s*`, longest first, as a
    regex engine does. -/
def kvSearch (cs : List Char) : Nat → Option (List Char × List Char)
  | 0 => kvAttempt cs 0
  | p + 1 => (kvAttempt cs (p + 1)).orElse (fun _ => kvSearch cs p)

/-- `re.match` of the line pattern of `_env_to_dict`; the leading `\s*` can
    consume at most the leading whitespace run. -/
def matchKV (cs : List Char) : Option (List Char × List Char) :=
  kvSearch cs (cs.takeWhile isPySpace).length

/-- `_env_to_dict`: decode a `KEY=VALUE` text block into a dict; lines that
    do not match the pattern are silently skipped; the value is stripped of
    whitespace and then of surrounding double and single quotes. -/
def _env_to_dict (data : String) : List (String × String) :=
  (splitlinesPy data).foldl
    (fun d line =>
      match matchKV line.toList with
      | none => d
      | some kv =>
        assocSet d (String.mk (stripWS kv.1))
          (String.mk (stripChar squote (stripChar dquote (stripWS kv.2)))))
    []

/-- `_dict_to_env`: encode a dict as `KEY=VALUE` lines; a value containing a
    newline is wrapped in single quotes, else a value containing a space, an
    empty value, or a value containing a quote character is wrapped in double
    quotes. -/
def _dict_to_env (d : List (String × String)) : String :=
  joinNl (d.map (fun kv =>
    let v := kv.2
    let v2 :=
      if v.toList.contains '\n' then
        String.mk [squote] ++ v ++ String.mk [squote]
      else if v.toList.contains ' ' || v = "" || v.toList.contains dquote ||
          v.toList.contains squote then
        String.mk [dquote] ++ v ++ String.mk [dquote]
      else v
    kv.1 ++ "=" ++ v2))

/-- UI field display types. -/
inductive FTy where
  | text : FTy
  | number : FTy
  | select : FTy
  | range : FTy
  | textarea : FTy
  | password : FTy
  | switch : FTy
deriving DecidableEq

/-- An option of a select field. -/
structure FieldOption where
  value : String
  label : String
deriving DecidableEq

/-- A UI schema field; presentation-only title/description strings are
    omitted, ids, types, values, options and bounds are kept. -/
structure SettingsField where
  id : String
  ftype : FTy
  value : Value
  options : List FieldOption := []
  minv : Option ℚ := none
  maxv : Option ℚ := none
  stepv : Option ℚ := none
deriving DecidableEq

/-- A UI schema section (title/description omitted). -/
structure SettingsSection where
  id : String
  fields : List SettingsField
deriving DecidableEq

/-- The UI schema: `SettingsOutput` of the source. -/
structure SettingsOutput where
  sections : List SettingsSection
deriving DecidableEq

/-- External collaborators consulted while building or persisting a schema:
    the runtime-mode flags, the dotenv secret store (read side), the
    `models.get_api_key` lookup, the directory listings (already filtered by
    their `exclude` argument) and the model-provider enumeration. -/
structure RuntimeEnv where
  dockerized : Bool
  development : Bool
  dotenv : String → Option String
  modelsApiKey : String → Option String
  promptsSubdirs : List String
  memorySubdirs : List String
  knowledgeSubdirs : List String
  providers : List (String × String)

/-- Key constants of the external dotenv helper; the exact text is immaterial
    to every claim. -/
def KEY_AUTH_LOGIN : String := "AUTH_LOGIN"

def KEY_AUTH_PASSWORD : String := "AUTH_PASSWORD"

def KEY_RFC_PASSWORD : String := "RFC_PASSWORD"

def KEY_ROOT_PASSWORD : String := "ROOT_PASSWORD"

def PASSWORD_PLACEHOLDER : String := "****PSWD****"

/-- `settings[k]`: the source raises `KeyError` on a missing key; every
    claim only reads keys present in the record, `.vnull` is an inert
    default making the model total. -/
def pyGet (s : PyDict) (k : String) : Value :=
  (assocLookup s k).getD .vnull

/-- The entries of a dict-valued key (`settings[k]` used as a dict). -/
def getDictEntries (s : PyDict) (k : String) : List (String × Value) :=
  match assocLookup s k with
  | some (.vdict d) => d
  | _ => []

/-- String-valued entries of a `dict[str, str]` field; `none` on a value of
    another shape (where the source would raise while encoding). -/
def asStrPairs (d : List (String × Value)) : Option (List (String × String)) :=
  d.foldr
    (fun kv acc =>
      match kv.2 with
      | .vstr t => acc.map (fun r => (kv.1, t) :: r)
      | _ => none)
    (some [])

/-- `_dict_to_env(settings[k])` for a `*_kwargs` field. -/
def kwargsText (s : PyDict) (k : String) : String :=
  _dict_to_env ((asStrPairs (getDictEntries s k)).getD [])

/-- Truthiness of `get_dotenv_value(key)` (absent or empty is falsy). -/
def optTruthy : Option String → Bool
  | none => false
  | some s => s ≠ ""

/-- `get_dotenv_value(key) or ""`. -/
def dotenvOr (env : RuntimeEnv) (k : String) : String :=
  (env.dotenv k).getD ""

/-- `settings["api_keys"].get(provider, models.get_api_key(provider))`:
    the key known for a provider, preferring the record over the
    collaborator lookup (whose absent result is `None`). -/
def api_key_of (env : RuntimeEnv) (settings : PyDict) (provider : String) :
    Value :=
  match assocLookup (getDictEntries settings "api_keys") provider with
  | some v => v
  | none =>
    match env.modelsApiKey provider with
    | some s => .vstr s
    | none => .vnull

/-- The display value of an API key field: the placeholder when the known
    key is truthy and not the string "None", else empty. -/
def apiKeyDisplay (env : RuntimeEnv) (settings : PyDict) (provider : String) :
    String :=
  if pyTruthy (api_key_of env settings provider) ∧
      api_key_of env settings provider ≠ Value.vstr "None" then
    PASSWORD_PLACEHOLDER
  else ""

/-- `_get_api_key_field` (the title argument is presentation-only and
    omitted). -/
def _get_api_key_field (env : RuntimeEnv) (settings : PyDict)
    (provider : String) : SettingsField :=
  { id := "api_key_" ++ provider,
    ftype := .password,
    value := .vstr (apiKeyDisplay env settings provider) }

/-- Options built from the `ModelProvider` enumeration. -/
def providerOptions (env : RuntimeEnv) : List FieldOption :=
  env.providers.map (fun p => { value := p.1, label := p.2 })

/-- Options built from a directory listing. -/
def subdirOptions (l : List String) : List FieldOption :=
  l.map (fun d => { value := d, label := d })

def chat_model_fields (env : RuntimeEnv) (s : PyDict) : List SettingsField :=
  [{ id := "chat_model_provider", ftype := .select,
     value := pyGet s "chat_model_provider", options := providerOptions env },
   { id := "chat_model_name", ftype := .text,
     value := pyGet s "chat_model_name" },
   { id := "chat_model_temperature", ftype := .range,
     minv := some (mkRat 0 1), maxv := some (mkRat 1 1),
     stepv := some (mkRat 1 100), value := pyGet s "chat_model_temperature" },
   { id := "chat_model_ctx_length", ftype := .number,
     value := pyGet s "chat_model_ctx_length" },
   { id := "chat_model_ctx_history", ftype := .range,
     minv := some (mkRat 1 100), maxv := some (mkRat 1 1),
     stepv := some (mkRat 1 100), value := pyGet s "chat_model_ctx_history" },
   { id := "chat_model_rl_requests", ftype := .number,
     value := pyGet s "chat_model_rl_requests" },
   { id := "chat_model_rl_input", ftype := .number,
     value := pyGet s "chat_model_rl_input" },
   { id := "chat_model_rl_output", ftype := .number,
     value := pyGet s "chat_model_rl_output" },
   { id := "chat_model_kwargs", ftype := .textarea,
     value := .vstr (kwargsText s "chat_model_kwargs") }]

def util_model_fields (env : RuntimeEnv) (s : PyDict) : List SettingsField :=
  [{ id := "util_model_provider", ftype := .select,
     value := pyGet s "util_model_provider", options := providerOptions env },
   { id := "util_model_name", ftype := .text,
     value := pyGet s "util_model_name" },
   { id := "util_model_temperature", ftype := .range,
     minv := some (mkRat 0 1), maxv := some (mkRat 1 1),
     stepv := some (mkRat 1 100), value := pyGet s "util_model_temperature" },
   { id := "util_model_rl_requests", ftype := .number,
     value := pyGet s "util_model_rl_requests" },
   { id := "util_model_rl_input", ftype := .number,
     value := pyGet s "util_model_rl_input" },
   { id := "util_model_rl_output", ftype := .number,
     value := pyGet s "util_model_rl_output" },
   { id := "util_model_kwargs", ftype := .textarea,
     value := .vstr (kwargsText s "util_model_kwargs") }]

def embed_model_fields (env : RuntimeEnv) (s : PyDict) : List SettingsField :=
  [{ id := "embed_model_provider", ftype := .select,
     value := pyGet s "embed_model_provider", options := providerOptions env },
   { id := "embed_model_name", ftype := .text,
     value := pyGet s "embed_model_name" },
   { id := "embed_model_rl_requests", ftype := .number,
     value := pyGet s "embed_model_rl_requests" },
   { id := "embed_model_rl_input", ftype := .number,
     value := pyGet s "embed_model_rl_input" },
   { id := "embed_model_kwargs", ftype := .textarea,
     value := .vstr (kwargsText s "embed_model_kwargs") }]

def browser_model_fields (env : RuntimeEnv) (s : PyDict) : List SettingsField :=
  [{ id := "browser_model_provider", ftype := .select,
     value := pyGet s "browser_model_provider", options := providerOptions env },
   { id := "browser_model_name", ftype := .text,
     value := pyGet s "browser_model_name" },
   { id := "browser_model_vision", ftype := .switch,
     value := pyGet s "browser_model_vision" },
   { id := "browser_model_temperature", ftype := .range,
     minv := some (mkRat 0 1), maxv := some (mkRat 1 1),
     stepv := some (mkRat 1 100),
     value := pyGet s "browser_model_temperature" },
   { id := "browser_model_kwargs", ftype := .textarea,
     value := .vstr (kwargsText s "browser_model_kwargs") }]

def auth_fields (env : RuntimeEnv) : List SettingsField :=
  [{ id := "auth_login", ftype := .text,
     value := .vstr (dotenvOr env KEY_AUTH_LOGIN) },
   { id := "auth_password", ftype := .password,
     value := .vstr
       (if optTruthy (env.dotenv KEY_AUTH_PASSWORD) then PASSWORD_PLACEHOLDER
        else "") }] ++
  (if env.dockerized then
    [{ id := "root_password", ftype := .password, value := .vstr "" }]
   else [])

def api_keys_fields (env : RuntimeEnv) (s : PyDict) : List SettingsField :=
  [_get_api_key_field env s "openai",
   _get_api_key_field env s "anthropic",
   _get_api_key_field env s "groq",
   _get_api_key_field env s "google",
   _get_api_key_field env s "deepseek",
   _get_api_key_field env s "openrouter",
   _get_api_key_field env s "sambanova",
   _get_api_key_field env s "mistralai",
   _get_api_key_field env s "huggingface"]

def agent_fields (env : RuntimeEnv) (s : PyDict) : List SettingsField :=
  [{ id := "agent_prompts_subdir", ftype := .select,
     value := pyGet s "agent_prompts_subdir",
     options := subdirOptions env.promptsSubdirs },
   { id := "agent_memory_subdir", ftype := .select,
     value := pyGet s "agent_memory_subdir",
     options := subdirOptions env.memorySubdirs },
   { id := "agent_knowledge_subdir", ftype := .select,
     value := pyGet s "agent_knowledge_subdir",
     options := subdirOptions env.knowledgeSubdirs }]

def dev_fields (env : RuntimeEnv) (s : PyDict) : List SettingsField :=
  (if env.development then
    [{ id := "rfc_url", ftype := .text, value := pyGet s "rfc_url" }]
   else []) ++
  [{ id := "rfc_password", ftype := .password,
     value := .vstr
       (if optTruthy (env.dotenv KEY_RFC_PASSWORD) then PASSWORD_PLACEHOLDER
        else "") }] ++
  (if env.development then
    [{ id := "rfc_port_http", ftype := .text,
       value := pyGet s "rfc_port_http" },
     { id := "rfc_port_ssh", ftype := .text,
       value := pyGet s "rfc_port_ssh" }]
   else [])

def stt_fields (_env : RuntimeEnv) (s : PyDict) : List SettingsField :=
  [{ id := "stt_model_size", ftype := .select,
     value := pyGet s "stt_model_size",
     options :=
       [{ value := "tiny", label := "Tiny (39M, English)" },
        { value := "base", label := "Base (74M, English)" },
        { value := "small", label := "Small (244M, English)" },
        { value := "medium", label := "Medium (769M, English)" },
        { value := "large", label := "Large (1.5B, Multilingual)" },
        { value := "turbo", label := "Turbo (Multilingual)" }] },
   { id := "stt_language", ftype := .text, value := pyGet s "stt_language" },
   { id := "stt_silence_threshold", ftype := .range,
     minv := some (mkRat 0 1), maxv := some (mkRat 1 1),
     stepv := some (mkRat 1 100),
     value := pyGet s "stt_silence_threshold" },
   { id := "stt_silence_duration", ftype := .text,
     value := pyGet s "stt_silence_duration" },
   { id := "stt_waiting_timeout", ftype := .text,
     value := pyGet s "stt_waiting_timeout" }]

/-- `convert_out`: the UI schema derived from a settings record, with the
    fixed section ordering of the source. -/
def convert_out (env : RuntimeEnv) (settings : PyDict) : SettingsOutput :=
  { sections :=
      [{ id := "agent", fields := agent_fields env settings },
       { id := "chat_model", fields := chat_model_fields env settings },
       { id := "util_model", fields := util_model_fields env settings },
       { id := "embed_model", fields := embed_model_fields env settings },
       { id := "browser_model", fields := browser_model_fields env settings },
       { id := "stt", fields := stt_fields env settings },
       { id := "api_keys", fields := api_keys_fields env settings },
       { id := "auth", fields := auth_fields env },
       { id := "dev", fields := dev_fields env settings }] }

/-- String pairs as a string-valued dict. -/
def strPairsV (l : List (String × String)) : List (String × Value) :=
  l.map (fun kv => (kv.1, .vstr kv.2))

/-- The string a field value is decoded from in the `*_kwargs` branch of
    `convert_in` (submitted textarea values are strings; `pyStr` makes the
    model total where the source would raise on a non-string). -/
def fieldText : Value → String
  | .vstr s => s
  | v => pyStr v

/-- One field of `convert_in`: skip the placeholder, decode `*_kwargs`
    fields, route `api_key_*` fields into the `api_keys` dict keyed by the
    full field id, and assign everything else directly under the field id. -/
def applyField (cur : PyDict) (f : SettingsField) : PyDict :=
  if f.value = Value.vstr PASSWORD_PLACEHOLDER then cur
  else if strEndsWithPy f.id "_kwargs" then
    assocSet cur f.id (.vdict (strPairsV (_env_to_dict (fieldText f.value))))
  else if strStartsWithPy f.id "api_key_" then
    assocSet cur "api_keys"
      (.vdict (assocSet (getDictEntries cur "api_keys") f.id f.value))
  else assocSet cur f.id f.value

/-- `convert_in`: apply a submitted schema onto the current settings record
    (the source reads the current record from `get_settings()`; it is an
    explicit argument here). -/
def convert_in (settings : SettingsOutput) (current : PyDict) : PyDict :=
  settings.sections.foldl (fun cur sec => sec.fields.foldl applyField cur)
    current

/-- Observable side effects of the persistence layer, in program order:
    a write of one key into the dotenv secret store, the privileged
    `chpasswd` OS call, and the JSON settings-file write (carrying the
    record serialized to it). -/
inductive Event where
  | saveDotenv : String → Value → Event
  | chpasswd : Value → Event
  | writeFile : PyDict → Event
deriving DecidableEq

/-- Python `str.upper()` (ASCII suffices for the modelled keys). -/
def strUpper (s : String) : String :=
  String.mk (s.toList.map Char.toUpper)

/-- `set_root_password`: raises unless the runtime reports a dockerized
    environment, otherwise runs `chpasswd` and persists the password in the
    dotenv store (in that order). -/
def set_root_password (password : Value) (dockerized : Bool) :
    Except String (List Event) :=
  if !dockerized then
    .error "root password can only be set in dockerized environments"
  else .ok [.chpasswd password, .saveDotenv KEY_ROOT_PASSWORD password]

/-- `_write_sensitive_settings`: store every API key under its uppercased
    name, then the auth login, then (when truthy) auth password, RFC
    password and root password; a truthy root password additionally invokes
    `set_root_password`, whose failure aborts with the events so far. -/
def _write_sensitive_settings (s : PyDict) (dockerized : Bool) :
    List Event × Option String :=
  let apiEv := (getDictEntries s "api_keys").map
    (fun kv => Event.saveDotenv (strUpper kv.1) kv.2)
  let ev1 := apiEv ++ [Event.saveDotenv KEY_AUTH_LOGIN (pyGet s "auth_login")]
  let ev2 := ev1 ++
    (if pyTruthy (pyGet s "auth_password") then
      [Event.saveDotenv KEY_AUTH_PASSWORD (pyGet s "auth_password")]
     else [])
  let ev3 := ev2 ++
    (if pyTruthy (pyGet s "rfc_password") then
      [Event.saveDotenv KEY_RFC_PASSWORD (pyGet s "rfc_password")]
     else [])
  let ev4 := ev3 ++
    (if pyTruthy (pyGet s "root_password") then
      [Event.saveDotenv KEY_ROOT_PASSWORD (pyGet s "root_password")]
     else [])
  if pyTruthy (pyGet s "root_password") then
    match set_root_password (pyGet s "root_password") dockerized with
    | .error e => (ev4, some e)
    | .ok evs => (ev4 ++ evs, none)
  else (ev4, none)

/-- `_remove_sensitive_settings`: zero every secret-bearing field of the
    record, in place in the source. -/
def _remove_sensitive_settings (s : PyDict) : PyDict :=
  assocSet
    (assocSet
      (assocSet
        (assocSet (assocSet s "api_keys" (.vdict [])) "auth_login" (.vstr ""))
        "auth_password" (.vstr ""))
      "rfc_password" (.vstr ""))
    "root_password" (.vstr "")

/-- `_write_settings_file`: write the sensitive fields to the secret store,
    remove them from the record, then write the sanitized record to the
    JSON file.  The returned record is the sanitized one (the same mutated
    object in the source). -/
def _write_settings_file (s : PyDict) (dockerized : Bool) :
    List Event × Except String PyDict :=
  match _write_sensitive_settings s dockerized with
  | (ev, some e) => (ev, .error e)
  | (ev, none) =>
    (ev ++ [Event.writeFile (_remove_sensitive_settings s)],
     .ok (_remove_sensitive_settings s))

/-- The one failure mode of loading: `json.loads` raising on malformed
    content. -/
inductive LoadErr where
  | parseError : LoadErr
deriving DecidableEq

/-- `_read_settings_file`: absent file yields nothing, a present file is
    parsed (a parse failure propagates) and normalized.  `parse` stands for
    `json.loads`; `none` models a raised `JSONDecodeError`. -/
def _read_settings_file (file : Option String)
    (parse : String → Option PyDict) : Except LoadErr (Option PyDict) :=
  match file with
  | none => .ok none
  | some content =>
    match parse content with
    | none => .error .parseError
    | some parsed => .ok (some (normalize_settings parsed))

/-- Python falsiness of the `_settings` global (`None` or an empty dict). -/
def pyFalsyOpt : Option PyDict → Bool
  | none => true
  | some d => d.isEmpty

/-- `get_settings`: fill the cache from the settings file when unset, fall
    back to the defaults when still unset, and return the normalized record
    together with the resulting cache state. -/
def get_settings (cache : Option PyDict) (file : Option String)
    (parse : String → Option PyDict) :
    Except LoadErr (PyDict × Option PyDict) :=
  match (if pyFalsyOpt cache then _read_settings_file file parse
         else .ok cache) with
  | .error e => .error e
  | .ok c1 =>
    let c2 := if pyFalsyOpt c1 then some get_default_settings else c1
    .ok (normalize_settings (c2.getD []), c2)

/-- `set_settings`: normalize the submitted record into a fresh copy, write
    it (which stores the secrets and sanitizes that copy in place), and cache
    the sanitized copy.  The reconfiguration side effects of
    `_apply_settings` concern external collaborators (agent contexts, the
    speech-to-text model) and are not modelled.  The result is the new cache
    together with the event trace. -/
def set_settings (s : PyDict) (dockerized : Bool) :
    Except String (PyDict × List Event) :=
  match _write_settings_file (normalize_settings s) dockerized with
  | (_, .error e) => .error e
  | (ev, .ok r) => .ok (r, ev)

/-- A minimal schema-building environment: not dockerized, not development,
    no stored secrets, no known API keys. -/
def env0 : RuntimeEnv :=
  { dockerized := false,
    development := false,
    dotenv := fun _ => none,
    modelsApiKey := fun _ => none,
    promptsSubdirs := ["default"],
    memorySubdirs := ["default"],
    knowledgeSubdirs := ["custom"],
    providers := [("OPENAI", "OpenAI"), ("ANTHROPIC", "Anthropic")] }

/-- A dockerized environment whose secret store holds a root password. -/
def envRootSecret : RuntimeEnv :=
  { env0 with
    dockerized := true,
    dotenv := fun k => if k = KEY_ROOT_PASSWORD then some "x" else none }

/-- All fields of a schema, in section order. -/
def fieldsOf (o : SettingsOutput) : List SettingsField :=
  (o.sections.map SettingsSection.fields).flatten

/-- The value a non-skipped field of `convert_in` writes to its target
    (the decoded dict for a `*_kwargs` field, the raw value otherwise). -/
def writeValueOf (f : SettingsField) : Value :=
  if strEndsWithPy f.id "_kwargs" then
    .vdict (strPairsV (_env_to_dict (fieldText f.value)))
  else f.value

/-- The record entry a field id denotes: `api_key_*` ids denote the entry of
    the `api_keys` mapping under the full field id (as `convert_in` keys it),
    every other id a top-level entry. -/
def entryAt (r : PyDict) (k : String) : Option Value :=
  if strStartsWithPy k "api_key_" then
    assocLookup (getDictEntries r "api_keys") k
  else assocLookup r k

/-- The value `normalize_settings` gives a key with default `v` from the
    present value of the input (`none` when the key is absent). -/
def normRes (v : Value) : Option Value → Value
  | none => v
  | some cur => (coerceLike v cur).getD v

/-- The secret-bearing keys of a settings record. -/
def secretKeys : List String :=
  ["api_keys", "auth_login", "auth_password", "rfc_password", "root_password"]

/-- `String.drop 8`, the provider part of an `api_key_*` field id. -/
def strDrop8 (s : String) : String :=
  String.mk (s.toList.drop 8)

/-- A schema submission leaving a stored auth password and a stored API key
    at the placeholder. -/
def c1SchemaW : SettingsOutput :=
  { sections :=
      [{ id := "sec",
         fields :=
           [{ id := "auth_password", ftype := .password,
              value := .vstr PASSWORD_PLACEHOLDER },
            { id := "api_key_openai", ftype := .password,
              value := .vstr PASSWORD_PLACEHOLDER }] }] }

/-- A current record holding secrets for the fields of `c1SchemaW`. -/
def c1CurW : PyDict :=
  [("auth_password", .vstr "secret"),
   ("api_keys", .vdict [("api_key_openai", .vstr "sk")])]

/-- A record whose only content is the API key of concrete scenario 3. -/
def c2RecW : PyDict :=
  [("api_keys", .vdict [("openai", .vstr "sk-123")])]

/-- A partial record with a numeric string for an int-typed key. -/
def c7InW : PyDict := [("chat_model_ctx_length", .vstr "200")]

/-- A partial record with a non-mapping value for a mapping-typed key. -/
def c7InC : PyDict := [("chat_model_kwargs", .vstr "zz")]

/-- A partial record with an int beyond the double range at a float-typed
    key (`float` of it raises `OverflowError`). -/
def c7InO : PyDict :=
  [("chat_model_temperature", .vint (floatMaxBound : Int))]

/-- A parse function standing for `json.loads` on malformed content. -/
def parseNone : String → Option PyDict := fun _ => none

/-- A submitted record carrying an auth password secret. -/
def c10InC : PyDict := [("auth_password", .vstr "pw")]

/-- The encoded line of concrete scenario 5. -/
def c5Text : String :=
  "KEY=" ++ String.mk [squote] ++ "line1\nline2" ++ String.mk [squote]

theorem assocLookup_set_self {α : Type} (l : List (String × α)) (k : String)
    (v : α) : assocLookup (assocSet l k v) k = some v := by
  induction l with
  | nil => simp [assocSet, assocLookup]
  | cons hd t ih =>
    obtain ⟨k2, w⟩ := hd
    by_cases hk : k2 = k <;> simp [assocSet, assocLookup, hk, ih]

theorem assocLookup_set_ne {α : Type} (l : List (String × α)) (k k2 : String)
    (v : α) (h : k ≠ k2) :
    assocLookup (assocSet l k v) k2 = assocLookup l k2 := by
  induction l with
  | nil => simp [assocSet, assocLookup, h]
  | cons hd t ih =>
    obtain ⟨k3, w⟩ := hd
    by_cases h3 : k3 = k <;> simp [assocSet, assocLookup, h3, ih]
    · subst h3; simp [h]

theorem assocSet_lookup_id {α : Type} (l : List (String × α)) (k : String)
    (v : α) (h : assocLookup l k = some v) : assocSet l k v = l := by
  induction l with
  | nil => simp [assocLookup] at h
  | cons hd t ih =>
    obtain ⟨k2, w⟩ := hd
    by_cases h2 : k2 = k
    · subst h2
      simp [assocLookup] at h
      simp [assocSet, h]
    · simp [assocLookup, h2] at h
      simp [assocSet, h2, ih h]

theorem assocSet_ne_nil {α : Type} (l : List (String × α)) (k : String)
    (v : α) : assocSet l k v ≠ [] := by
  cases l with
  | nil => simp [assocSet]
  | cons hd t =>
    obtain ⟨k2, w⟩ := hd
    by_cases h : k2 = k <;> simp [assocSet, h]

theorem normStep_lookup_ne (c : PyDict) (kv : String × Value) (k : String)
    (h : kv.1 ≠ k) : assocLookup (normStep c kv) k = assocLookup c k := by
  unfold normStep
  cases assocLookup c kv.1 <;> simp [assocLookup_set_ne _ _ _ _ h]

theorem normStep_eq_of_lookup (c : PyDict) (k : String) (v w : Value)
    (h : assocLookup c k = some w) :
    normStep c (k, v) = assocSet c k ((coerceLike v w).getD v) := by
  unfold normStep
  dsimp only
  rw [h]

theorem norm_fold_preserve (ds : List (String × Value)) (c : PyDict)
    (k : String) (h : k ∉ ds.map Prod.fst) :
    assocLookup (ds.foldl normStep c) k = assocLookup c k := by
  induction ds generalizing c with
  | nil => rfl
  | cons hd t ih =>
    simp only [List.map_cons, List.mem_cons, not_or] at h
    rw [List.foldl_cons, ih _ h.2]
    exact normStep_lookup_ne c hd k (Ne.symm h.1)

theorem norm_fold_char (ds : List (String × Value)) (c : PyDict) (k : String)
    (v : Value) (hnd : (ds.map Prod.fst).Nodup) (hmem : (k, v) ∈ ds) :
    assocLookup (ds.foldl normStep c) k =
      some (normRes v (assocLookup c k)) := by
  induction ds generalizing c with
  | nil => cases hmem
  | cons hd t ih =>
    rw [List.map_cons, List.nodup_cons] at hnd
    rw [List.foldl_cons]
    rcases List.mem_cons.mp hmem with heq | ht
    · have hd1 : hd.1 = k := by rw [← heq]
      have hk : k ∉ t.map Prod.fst := hd1 ▸ hnd.1
      rw [norm_fold_preserve t _ k hk]
      have hv : hd = (k, v) := heq.symm
      subst hv
      unfold normStep normRes
      dsimp only
      cases hc : assocLookup c k <;> simp [assocLookup_set_self]
    · have hk : hd.1 ≠ k := by
        intro he
        exact hnd.1 (he ▸ List.mem_map.mpr ⟨(k, v), ht, rfl⟩)
      rw [ih (normStep c hd) hnd.2 ht, normStep_lookup_ne c hd k hk]

theorem coerceInt_shape : ∀ x w, coerceInt x = some w → ∃ n, w = Value.vint n
  | .vint n, _, h => ⟨n, by injection h with h2; exact h2.symm⟩
  | .vbool b, _, h => ⟨if b then 1 else 0, by injection h with h2; exact h2.symm⟩
  | .vfloat q, _, h => ⟨ratTrunc q, by injection h with h2; exact h2.symm⟩
  | .vstr s, w, h => by
    rcases Option.map_eq_some'.mp h with ⟨m, _, hw⟩
    exact ⟨m, hw.symm⟩
  | .vnull, _, h => absurd h (by simp [coerceInt])
  | .vlist l, _, h => absurd h (by simp [coerceInt])
  | .vdict d, _, h => absurd h (by simp [coerceInt])

theorem coerceFloat_shape :
    ∀ x w, coerceFloat x = some w → ∃ q, w = Value.vfloat q
  | .vfloat q, _, h => ⟨q, by injection h with h2; exact h2.symm⟩
  | .vint n, _, h => ⟨mkRat n 1, by injection h with h2; exact h2.symm⟩
  | .vbool b, _, h =>
    ⟨mkRat (if b then 1 else 0) 1, by injection h with h2; exact h2.symm⟩
  | .vstr s, w, h => by
    rcases Option.map_eq_some'.mp h with ⟨m, _, hw⟩
    exact ⟨m, hw.symm⟩
  | .vnull, _, h => absurd h (by simp [coerceFloat])
  | .vlist l, _, h => absurd h (by simp [coerceFloat])
  | .vdict d, _, h => absurd h (by simp [coerceFloat])

theorem coerceDict_shape :
    ∀ x w, coerceDict x = some w → ∃ d, w = Value.vdict d
  | .vdict d, _, h => ⟨d, by injection h with h2; exact h2.symm⟩
  | .vstr s, w, h => by
    by_cases hs : s = ""
    · subst hs
      exact ⟨[], by injection h with h2; exact h2.symm⟩
    · exact absurd h (by simp [coerceDict, hs])
  | .vlist l, w, h => by
    rcases Option.map_eq_some'.mp h with ⟨m, _, hw⟩
    exact ⟨m, hw.symm⟩
  | .vnull, _, h => absurd h (by simp [coerceDict])
  | .vbool b, _, h => absurd h (by simp [coerceDict])
  | .vint n, _, h => absurd h (by simp [coerceDict])
  | .vfloat q, _, h => absurd h (by simp [coerceDict])

theorem coerce_result_stable (v cur w : Value)
    (h : coerceLike v cur = some w) : coerceLike v w = some w := by
  cases v with
  | vnull => simp [coerceLike] at h
  | vlist l => simp [coerceLike] at h
  | vbool b =>
    simp only [coerceLike, Option.some.injEq] at h
    rw [← h]; rfl
  | vstr s =>
    simp only [coerceLike, Option.some.injEq] at h
    rw [← h]; rfl
  | vint n =>
    obtain ⟨m, rfl⟩ := coerceInt_shape cur w h
    rfl
  | vfloat q =>
    obtain ⟨m, rfl⟩ := coerceFloat_shape cur w h
    rfl
  | vdict d =>
    obtain ⟨m, rfl⟩ := coerceDict_shape cur w h
    rfl

theorem defaults_keys_nodup : (get_default_settings.map Prod.fst).Nodup := by
  decide

theorem defaults_self_stable :
    ∀ kv ∈ get_default_settings, coerceLike kv.2 kv.2 = some kv.2 := by
  decide

theorem foldl_fix {α β : Type} (f : α → β → α) (c : α) (l : List β)
    (h : ∀ b ∈ l, f c b = c) : l.foldl f c = c := by
  induction l with
  | nil => rfl
  | cons hd t ih =>
    rw [List.foldl_cons, h hd (by simp)]
    exact ih (fun b hb => h b (by simp [hb]))

/-- C6: normalization is idempotent; for every partial settings record `x`,
    `normalize_settings (normalize_settings x) = normalize_settings x`. -/
theorem normalize_settings_idempotent (x : PyDict) :
    normalize_settings (normalize_settings x) = normalize_settings x := by
  show get_default_settings.foldl normStep (normalize_settings x) =
    normalize_settings x
  apply foldl_fix
  intro kv hkv
  obtain ⟨k, v⟩ := kv
  have hchar : assocLookup (normalize_settings x) k =
      some (normRes v (assocLookup x k)) :=
    norm_fold_char get_default_settings x k v defaults_keys_nodup hkv
  have hstable : coerceLike v (normRes v (assocLookup x k)) =
      some (normRes v (assocLookup x k)) := by
    cases hx : assocLookup x k with
    | none => simpa [normRes] using defaults_self_stable (k, v) hkv
    | some cur =>
      cases hcl : coerceLike v cur with
      | none => simpa [normRes, hcl] using defaults_self_stable (k, v) hkv
      | some w => simpa [normRes, hcl] using coerce_result_stable v cur w hcl
  rw [normStep_eq_of_lookup _ _ _ _ hchar, hstable, Option.getD_some]
  exact assocSet_lookup_id _ _ _ hchar

set_option exponentiation.threshold 1100 in
/-- The overflow bound literal is `2^1024 - 2^970`. -/
theorem floatMaxBound_eq : floatMaxBound = 2 ^ 1024 - 2 ^ 970 := by
  unfold floatMaxBound
  norm_num

/-- `coerceFloatE` agrees with `coerceFloat` whenever it does not raise an
    uncaught exception. -/
theorem coerceFloatE_ok (x : Value) (o : Option Value)
    (h : coerceFloatE x = .ok o) : coerceFloat x = o := by
  cases x with
  | vint n =>
    simp only [coerceFloatE] at h
    split at h
    · exact Except.noConfusion h
    · simp only [Except.ok.injEq] at h
      rw [← h]
      rfl
  | vnull => exact Except.ok.inj h
  | vbool b => exact Except.ok.inj h
  | vfloat q => exact Except.ok.inj h
  | vstr s => exact Except.ok.inj h
  | vlist l => exact Except.ok.inj h
  | vdict d => exact Except.ok.inj h

/-- `coerceLikeE` agrees with `coerceLike` whenever it does not raise an
    uncaught exception. -/
theorem coerceLikeE_ok (dv x : Value) (o : Option Value)
    (h : coerceLikeE dv x = .ok o) : coerceLike dv x = o := by
  cases dv with
  | vfloat q => exact coerceFloatE_ok x o h
  | vnull => exact Except.ok.inj h
  | vbool b => exact Except.ok.inj h
  | vint n => exact Except.ok.inj h
  | vstr s => exact Except.ok.inj h
  | vlist l => exact Except.ok.inj h
  | vdict d => exact Except.ok.inj h

/-- An uncaught exception aborts the rest of the normalization loop. -/
theorem normE_fold_error (l : List (String × Value)) (e : String) :
    l.foldl normStepE (.error e) = .error e := by
  induction l with
  | nil => rfl
  | cons kv tl ih => exact ih

/-- When the exception-aware fold completes, it computes the total fold. -/
theorem normE_fold_ok (l : List (String × Value)) :
    ∀ (c r : PyDict), l.foldl normStepE (.ok c) = .ok r →
      l.foldl normStep c = r := by
  induction l with
  | nil => exact fun c r h => Except.ok.inj h
  | cons kv tl ih =>
    intro c r h
    rw [List.foldl_cons] at h ⊢
    cases hl : assocLookup c kv.1 with
    | none =>
      have he : normStepE (.ok c) kv = .ok (assocSet c kv.1 kv.2) := by
        simp [normStepE, hl]
      have hs : normStep c kv = assocSet c kv.1 kv.2 := by
        simp [normStep, hl]
      rw [he] at h
      rw [hs]
      exact ih _ r h
    | some cur =>
      cases hce : coerceLikeE kv.2 cur with
      | error e =>
        have he : normStepE (.ok c) kv = .error e := by
          simp [normStepE, hl, hce]
        rw [he, normE_fold_error] at h
        exact Except.noConfusion h
      | ok o =>
        have he : normStepE (.ok c) kv =
            .ok (assocSet c kv.1 (o.getD kv.2)) := by
          simp [normStepE, hl, hce]
        have hs : normStep c kv = assocSet c kv.1 (o.getD kv.2) := by
          simp [normStep, hl, coerceLikeE_ok kv.2 cur o hce]
        rw [he] at h
        rw [hs]
        exact ih _ r h

/-- A completed `normalize_settings_exc` returns `normalize_settings`. -/
theorem normalize_settings_exc_ok (s r : PyDict)
    (h : normalize_settings_exc s = .ok r) : r = normalize_settings s :=
  (normE_fold_ok get_default_settings s r h).symm

/-- If some processed key's present value makes its coercion raise an
    uncaught exception, the whole fold raises. -/
theorem normE_fold_raises (l : List (String × Value)) :
    ∀ (c : PyDict) (k : String) (v : Value),
      (l.map Prod.fst).Nodup → (k, v) ∈ l →
      ∀ (cur : Value), assocLookup c k = some cur →
      ∀ (e : String), coerceLikeE v cur = .error e →
      ∃ e2, l.foldl normStepE (.ok c) = .error e2 := by
  induction l with
  | nil => exact fun c k v _ hkv => absurd hkv (List.not_mem_nil _)
  | cons kv tl ih =>
    intro c k v hnd hkv cur hc e he
    obtain ⟨k1, v1⟩ := kv
    simp only [List.map_cons, List.nodup_cons] at hnd
    rw [List.foldl_cons]
    rcases List.mem_cons.mp hkv with heq | hmem
    · injection heq with hk hv
      subst hk
      subst hv
      have hstep : normStepE (.ok c) (k, v) = .error e := by
        simp [normStepE, hc, he]
      rw [hstep, normE_fold_error]
      exact ⟨e, rfl⟩
    · have hk1 : k1 ≠ k := fun hcon =>
        hnd.1 (hcon ▸ List.mem_map_of_mem Prod.fst hmem)
      cases hl : assocLookup c k1 with
      | none =>
        have hstep : normStepE (.ok c) (k1, v1) =
            .ok (assocSet c k1 v1) := by
          simp [normStepE, hl]
        rw [hstep]
        refine ih (assocSet c k1 v1) k v hnd.2 hmem cur ?_ e he
        rw [assocLookup_set_ne c k1 k v1 hk1]
        exact hc
      | some cur1 =>
        cases hce : coerceLikeE v1 cur1 with
        | error e1 =>
          have hstep : normStepE (.ok c) (k1, v1) = .error e1 := by
            simp [normStepE, hl, hce]
          rw [hstep, normE_fold_error]
          exact ⟨e1, rfl⟩
        | ok o =>
          have hstep : normStepE (.ok c) (k1, v1) =
              .ok (assocSet c k1 (o.getD v1)) := by
            simp [normStepE, hl, hce]
          rw [hstep]
          refine ih (assocSet c k1 (o.getD v1)) k v hnd.2 hmem cur ?_ e he
          rw [assocLookup_set_ne c k1 k (o.getD v1) hk1]
          exact hc

/-- C7 (amended): for every partial record and every key of the defaults,
    `normalize_settings` takes the default when the key is absent; a present
    value is coerced to the runtime type of the default (`int()` truncating
    toward zero), with silent fallback to the default when the coercion
    raises a caught `ValueError`/`TypeError` — but not "without raising" in
    general: an int beyond the double range at a float-typed key makes
    `float()` raise `OverflowError`, which `except (ValueError, TypeError)`
    does not catch, so the whole call raises and returns nothing; and a
    mapping-typed key is passed through `dict()` like every other key, which
    preserves the content of a mapping input but converts or replaces a
    non-mapping input (it is not copied in as-is). -/
theorem normalize_key_semantics (x : PyDict) (k : String) (v : Value)
    (hmem : (k, v) ∈ get_default_settings) :
    (∀ r, normalize_settings_exc x = .ok r → r = normalize_settings x) ∧
    (assocLookup x k = none →
      assocLookup (normalize_settings x) k = some v) ∧
    (∀ cur o, assocLookup x k = some cur → coerceLikeE v cur = .ok o →
      assocLookup (normalize_settings x) k = some (o.getD v)) ∧
    (∀ cur e, assocLookup x k = some cur → coerceLikeE v cur = .error e →
      ∀ r, normalize_settings_exc x ≠ .ok r) ∧
    (∀ dv cur, v = .vdict dv → assocLookup x k = some (.vdict cur) →
      assocLookup (normalize_settings x) k = some (.vdict cur)) := by
  have hchar : assocLookup (normalize_settings x) k =
      some (normRes v (assocLookup x k)) :=
    norm_fold_char get_default_settings x k v defaults_keys_nodup hmem
  refine ⟨fun r h => normalize_settings_exc_ok x r h,
    fun h0 => ?_, fun cur o hc ho => ?_, fun cur e hc he r hok => ?_,
    fun dv cur hv hc => ?_⟩
  · rw [hchar, h0]; rfl
  · rw [hchar, hc]
    simp [normRes, coerceLikeE_ok v cur o ho]
  · obtain ⟨e2, herr⟩ := normE_fold_raises get_default_settings x k v
      defaults_keys_nodup hmem cur hc e he
    unfold normalize_settings_exc at hok
    rw [herr] at hok
    exact Except.noConfusion hok
  · rw [hchar, hc]; subst hv; rfl

/-- C7 counterexample: the claim says a mapping-typed key copies the input
    value into the result as-is and that coercion failure never raises.
    Both parts fail: `normalize_settings` applied to a record carrying the
    string "zz" under `chat_model_kwargs` replaces it with the default
    empty mapping (Python `dict("zz")` raises `ValueError`, so the silent
    fallback fires), and a record carrying the int `2 ^ 1024` under the
    float-typed `chat_model_temperature` makes the call raise an uncaught
    `OverflowError` instead of falling back. -/
theorem normalize_mapping_not_as_is :
    assocLookup c7InC "chat_model_kwargs" = some (.vstr "zz") ∧
    assocLookup (normalize_settings c7InC) "chat_model_kwargs" =
      some (.vdict []) ∧
    assocLookup (normalize_settings c7InC) "chat_model_kwargs" ≠
      some (.vstr "zz") ∧
    normalize_settings_exc c7InO = .error "OverflowError" ∧
    normalize_settings_exc c7InC = .ok (normalize_settings c7InC) := by
  decide

/-- Witness for C7: the int-typed key `chat_model_ctx_length` with string
    input "200" is coerced (without raising) to the integer 200. -/
theorem normalize_key_semantics_witness :
    ("chat_model_ctx_length", Value.vint 120000) ∈ get_default_settings ∧
    assocLookup (normalize_settings c7InW) "chat_model_ctx_length" =
      some (.vint 200) := by
  refine ⟨by decide, ?_⟩
  have h := (normalize_key_semantics c7InW "chat_model_ctx_length"
    (Value.vint 120000) (by decide)).2.2.1 (Value.vstr "200")
    (some (Value.vint 200)) (by decide) (by decide)
  rw [h]
  decide

theorem getDictEntries_set_ne (cur : PyDict) (k2 : String) (w : Value)
    (h : k2 ≠ "api_keys") :
    getDictEntries (assocSet cur k2 w) "api_keys" =
      getDictEntries cur "api_keys" := by
  unfold getDictEntries
  rw [assocLookup_set_ne _ _ _ _ h]

theorem getDictEntries_set_self (cur : PyDict) (d : List (String × Value)) :
    getDictEntries (assocSet cur "api_keys" (.vdict d)) "api_keys" = d := by
  unfold getDictEntries
  rw [assocLookup_set_self]

theorem applyField_entry_preserve (cur : PyDict) (f : SettingsField)
    (k : String)
    (hf1 : f.id = k → f.value = .vstr PASSWORD_PLACEHOLDER)
    (hf2 : strStartsWithPy k "api_key_" = true → f.id = "api_keys" →
      f.value = .vstr PASSWORD_PLACEHOLDER)
    (hf3 : k = "api_keys" → strStartsWithPy f.id "api_key_" = true →
      f.value = .vstr PASSWORD_PLACEHOLDER) :
    entryAt (applyField cur f) k = entryAt cur k := by
  simp only [applyField]
  split_ifs with hph hkw hap
  · rfl
  · have hne : f.id ≠ k := fun he => hph (hf1 he)
    have hne2 : f.id ≠ "api_keys" := fun he => by
      rw [he] at hkw; exact absurd hkw (by decide)
    unfold entryAt
    by_cases hpre : strStartsWithPy k "api_key_" = true
    · rw [if_pos hpre, if_pos hpre, getDictEntries_set_ne _ _ _ hne2]
    · rw [if_neg hpre, if_neg hpre, assocLookup_set_ne _ _ _ _ hne]
  · unfold entryAt
    by_cases hpre : strStartsWithPy k "api_key_" = true
    · have hne : f.id ≠ k := fun he => hph (hf1 he)
      rw [if_pos hpre, if_pos hpre, getDictEntries_set_self,
        assocLookup_set_ne _ _ _ _ hne]
    · have hne : "api_keys" ≠ k := by
        intro he
        exact hph (hf3 he.symm hap)
      rw [if_neg hpre, if_neg hpre, assocLookup_set_ne _ _ _ _ hne]
  · have hne : f.id ≠ k := fun he => hph (hf1 he)
    unfold entryAt
    by_cases hpre : strStartsWithPy k "api_key_" = true
    · have hne2 : f.id ≠ "api_keys" := fun he => hph (hf2 hpre he)
      rw [if_pos hpre, if_pos hpre, getDictEntries_set_ne _ _ _ hne2]
    · rw [if_neg hpre, if_neg hpre, assocLookup_set_ne _ _ _ _ hne]

theorem applyFields_entry_preserve (fs : List SettingsField) (cur : PyDict)
    (k : String)
    (hf1 : ∀ f ∈ fs, f.id = k → f.value = .vstr PASSWORD_PLACEHOLDER)
    (hf2 : strStartsWithPy k "api_key_" = true → ∀ f ∈ fs,
      f.id = "api_keys" → f.value = .vstr PASSWORD_PLACEHOLDER)
    (hf3 : k = "api_keys" → ∀ f ∈ fs,
      strStartsWithPy f.id "api_key_" = true →
        f.value = .vstr PASSWORD_PLACEHOLDER) :
    entryAt (fs.foldl applyField cur) k = entryAt cur k := by
  induction fs generalizing cur with
  | nil => rfl
  | cons f t ih =>
    rw [List.foldl_cons]
    rw [ih (applyField cur f) (fun g hg => hf1 g (by simp [hg]))
      (fun hp g hg => hf2 hp g (by simp [hg]))
      (fun hk g hg => hf3 hk g (by simp [hg]))]
    exact applyField_entry_preserve cur f k (hf1 f (by simp))
      (fun hp => hf2 hp f (by simp)) (fun hk => hf3 hk f (by simp))

theorem convert_in_foldl_fields (ss : List SettingsSection) (cur : PyDict) :
    ss.foldl (fun c sec => sec.fields.foldl applyField c) cur =
      ((ss.map SettingsSection.fields).flatten).foldl applyField cur := by
  induction ss generalizing cur with
  | nil => rfl
  | cons s t ih =>
    rw [List.foldl_cons, List.map_cons, List.flatten_cons, List.foldl_append,
      ih]

/-- C1: a submitted field whose value is the placeholder token is skipped by
    `convert_in`; as long as no other field of the schema writes to the same
    entry (ids are unique in a schema built by `convert_out`, which also
    emits no field named `api_keys`), the denoted entry of the settings
    record — the `api_keys` mapping entry for an `api_key_*` field, the
    top-level entry otherwise — is exactly the same after `convert_in` as
    before, so a pre-existing secret is never overwritten with the masked
    display value. -/
theorem convert_in_placeholder_preserves (schema : SettingsOutput)
    (cur : PyDict) (k : String)
    (h1 : ∀ f ∈ fieldsOf schema, f.id = k →
      f.value = .vstr PASSWORD_PLACEHOLDER)
    (h2 : strStartsWithPy k "api_key_" = true → ∀ f ∈ fieldsOf schema,
      f.id = "api_keys" → f.value = .vstr PASSWORD_PLACEHOLDER)
    (h3 : k = "api_keys" → ∀ f ∈ fieldsOf schema,
      strStartsWithPy f.id "api_key_" = true →
        f.value = .vstr PASSWORD_PLACEHOLDER) :
    entryAt (convert_in schema cur) k = entryAt cur k := by
  unfold convert_in
  rw [convert_in_foldl_fields]
  exact applyFields_entry_preserve _ cur k h1 h2 h3

/-- Witness for C1: a schema leaving the auth password and the OpenAI API
    key at the placeholder preserves both stored secrets. -/
theorem convert_in_placeholder_preserves_witness :
    entryAt (convert_in c1SchemaW c1CurW) "auth_password" =
      entryAt c1CurW "auth_password" ∧
    entryAt (convert_in c1SchemaW c1CurW) "api_key_openai" =
      entryAt c1CurW "api_key_openai" :=
  ⟨convert_in_placeholder_preserves c1SchemaW c1CurW "auth_password"
      (by decide) (by decide) (by decide),
    convert_in_placeholder_preserves c1SchemaW c1CurW "api_key_openai"
      (by decide) (by decide) (by decide)⟩

/-- C5 counterexample: decoding the text encoded from
    {"KEY": "line1\nline2"} does not give back that mapping, refuting the
    round-trip half of the claim. -/
theorem codec_newline_roundtrip_fails :
    _env_to_dict (_dict_to_env [("KEY", "line1\nline2")]) ≠
      [("KEY", "line1\nline2")] := by decide

/-- C5 (amended): encoding {"KEY": "line1\nline2"} produces the
    single-quoted text KEY='line1\nline2' exactly as the claim states, but
    decoding that text yields {"KEY": "line1"}: the decoder is
    line-oriented, so the value is cut at the newline and the second
    physical line (which has no "=") is silently skipped. -/
theorem codec_newline_encode_decode :
    _dict_to_env [("KEY", "line1\nline2")] = c5Text ∧
    _env_to_dict c5Text = [("KEY", "line1")] := by decide

/-- C9: invoking the privileged root-password change while the runtime
    reports non-containerized raises an explicit error and performs no OS
    side effect; only a containerized run produces the `chpasswd` call
    (followed by the dotenv write). -/
theorem set_root_password_gating (password : Value) (dockerized : Bool) :
    (dockerized = false →
      set_root_password password dockerized =
        .error "root password can only be set in dockerized environments") ∧
    (∀ t, set_root_password password dockerized = .ok t →
      dockerized = true ∧
        t = [.chpasswd password, .saveDotenv KEY_ROOT_PASSWORD password]) := by
  constructor
  · intro h; subst h; rfl
  · intro t h
    cases dockerized with
    | false => simp [set_root_password] at h
    | true =>
      refine ⟨rfl, ?_⟩
      simpa [set_root_password] using h.symm

/-- Witness for C9: with a concrete password outside a container the call
    errors. -/
theorem set_root_password_gating_witness :
    set_root_password (.vstr "pw") false =
      .error "root password can only be set in dockerized environments" :=
  (set_root_password_gating (.vstr "pw") false).1 rfl

/-- C8: a persisted settings file whose content does not parse makes
    `_read_settings_file` propagate the parse error, and `get_settings`
    (with an unset cache, so that the read happens) propagates the same
    error rather than falling back to defaults. -/
theorem malformed_json_propagates (content : String)
    (parse : String → Option PyDict) (cache : Option PyDict)
    (hp : parse content = none) (hc : pyFalsyOpt cache = true) :
    _read_settings_file (some content) parse = .error .parseError ∧
    get_settings cache (some content) parse = .error .parseError := by
  constructor
  · simp [_read_settings_file, hp]
  · simp [get_settings, _read_settings_file, hp, hc]

/-- Witness for C8: a parse function that rejects the content (as
    `json.loads` does on malformed JSON) makes `get_settings` fail. -/
theorem malformed_json_propagates_witness :
    parseNone "not json" = none ∧
    get_settings none (some "not json") parseNone = .error .parseError :=
  ⟨rfl, (malformed_json_propagates "not json" parseNone none rfl rfl).2⟩

theorem remove_sensitive_lookups (s : PyDict) :
    assocLookup (_remove_sensitive_settings s) "api_keys" =
      some (.vdict []) ∧
    assocLookup (_remove_sensitive_settings s) "auth_login" =
      some (.vstr "") ∧
    assocLookup (_remove_sensitive_settings s) "auth_password" =
      some (.vstr "") ∧
    assocLookup (_remove_sensitive_settings s) "rfc_password" =
      some (.vstr "") ∧
    assocLookup (_remove_sensitive_settings s) "root_password" =
      some (.vstr "") := by
  unfold _remove_sensitive_settings
  refine ⟨?_, ?_, ?_, ?_, ?_⟩
  · rw [assocLookup_set_ne _ _ _ _ (by decide),
      assocLookup_set_ne _ _ _ _ (by decide),
      assocLookup_set_ne _ _ _ _ (by decide),
      assocLookup_set_ne _ _ _ _ (by decide), assocLookup_set_self]
  · rw [assocLookup_set_ne _ _ _ _ (by decide),
      assocLookup_set_ne _ _ _ _ (by decide),
      assocLookup_set_ne _ _ _ _ (by decide), assocLookup_set_self]
  · rw [assocLookup_set_ne _ _ _ _ (by decide),
      assocLookup_set_ne _ _ _ _ (by decide), assocLookup_set_self]
  · rw [assocLookup_set_ne _ _ _ _ (by decide), assocLookup_set_self]
  · rw [assocLookup_set_self]

/-- C2: on a record whose `api_keys` mapping is exactly
    {"openai": "sk-123"}, `_write_settings_file` emits the SecretStore
    write of `OPENAI` = "sk-123" as the very first event, so it happens
    strictly before any JSON write; when the write completes, the JSON
    write is the last event and the record it serializes has an empty
    `api_keys` mapping and empty `auth_login`, `auth_password`,
    `rfc_password` and `root_password`. -/
theorem write_settings_file_secret_order (s : PyDict) (dockerized : Bool)
    (hapi : getDictEntries s "api_keys" = [("openai", .vstr "sk-123")]) :
    ∃ rest, (_write_settings_file s dockerized).1 =
      Event.saveDotenv "OPENAI" (.vstr "sk-123") :: rest ∧
      ∀ r, (_write_settings_file s dockerized).2 = .ok r →
        rest.getLast? = some (Event.writeFile r) ∧
        assocLookup r "api_keys" = some (.vdict []) ∧
        assocLookup r "auth_login" = some (.vstr "") ∧
        assocLookup r "auth_password" = some (.vstr "") ∧
        assocLookup r "rfc_password" = some (.vstr "") ∧
        assocLookup r "root_password" = some (.vstr "") := by
  have hu : strUpper "openai" = "OPENAI" := by decide
  unfold _write_settings_file _write_sensitive_settings
  rw [hapi]
  simp only [List.map_cons, List.map_nil, hu]
  cases dockerized <;>
    simp only [set_root_password, Bool.not_false, Bool.not_true, if_true,
      if_false, Bool.false_eq_true, Bool.true_eq_false] <;>
    split_ifs <;>
    simp only [List.cons_append, List.nil_append, List.append_assoc] <;>
    refine ⟨_, rfl, fun r hr => ?_⟩
  all_goals try (exact hr.elim)
  all_goals
    injection hr with hr2
  all_goals
    subst hr2
  all_goals
    exact ⟨by simp, (remove_sensitive_lookups s).1,
      (remove_sensitive_lookups s).2.1,
      (remove_sensitive_lookups s).2.2.1,
      (remove_sensitive_lookups s).2.2.2.1,
      (remove_sensitive_lookups s).2.2.2.2⟩

/-- Witness for C2: the concrete record of scenario 3. -/
theorem write_settings_file_secret_order_witness :
    getDictEntries c2RecW "api_keys" = [("openai", .vstr "sk-123")] ∧
    ∃ rest, (_write_settings_file c2RecW false).1 =
      Event.saveDotenv "OPENAI" (.vstr "sk-123") :: rest ∧
      ∀ r, (_write_settings_file c2RecW false).2 = .ok r →
        rest.getLast? = some (Event.writeFile r) ∧
        assocLookup r "api_keys" = some (.vdict []) ∧
        assocLookup r "auth_login" = some (.vstr "") ∧
        assocLookup r "auth_password" = some (.vstr "") ∧
        assocLookup r "rfc_password" = some (.vstr "") ∧
        assocLookup r "root_password" = some (.vstr "") :=
  ⟨by decide, write_settings_file_secret_order c2RecW false (by decide)⟩

theorem writeValueOf_of_ends (f : SettingsField)
    (h : strEndsWithPy f.id "_kwargs" = true) :
    writeValueOf f = .vdict (strPairsV (_env_to_dict (fieldText f.value))) := by
  simp only [writeValueOf, if_pos h]

theorem writeValueOf_of_not_ends (f : SettingsField)
    (h : strEndsWithPy f.id "_kwargs" = false) : writeValueOf f = f.value := by
  simp only [writeValueOf]
  rw [if_neg]
  simp [h]

theorem asStrPairs_strPairsV (d : List (String × String)) :
    asStrPairs (strPairsV d) = some d := by
  induction d with
  | nil => rfl
  | cons kv t ih => simp [asStrPairs, strPairsV] at ih ⊢; simp [ih]

theorem applyField_lookup_step (cur : PyDict) (f : SettingsField)
    (k : String) (o : Option Value) (hkne : k ≠ "api_keys")
    (hcur : assocLookup cur k = o)
    (hf : f.id = k → f.value ≠ .vstr PASSWORD_PLACEHOLDER →
      (strEndsWithPy f.id "_kwargs" = true ∨
        strStartsWithPy f.id "api_key_" = false) →
      some (writeValueOf f) = o) :
    assocLookup (applyField cur f) k = o := by
  simp only [applyField]
  split_ifs with hph hkw hap
  · exact hcur
  · by_cases hid : f.id = k
    · subst hid
      rw [assocLookup_set_self, ← writeValueOf_of_ends f hkw]
      exact hf rfl hph (Or.inl hkw)
    · rw [assocLookup_set_ne _ _ _ _ hid]; exact hcur
  · rw [assocLookup_set_ne _ _ _ _ (Ne.symm hkne)]; exact hcur
  · by_cases hid : f.id = k
    · subst hid
      rw [assocLookup_set_self,
        ← writeValueOf_of_not_ends f (by simpa using hkw)]
      exact hf rfl hph (Or.inr (by simpa using hap))
    · rw [assocLookup_set_ne _ _ _ _ hid]; exact hcur

theorem applyFields_lookup (fs : List SettingsField) (cur : PyDict)
    (k : String) (o : Option Value) (hkne : k ≠ "api_keys")
    (hcur : assocLookup cur k = o)
    (hf : ∀ f ∈ fs, f.id = k → f.value ≠ .vstr PASSWORD_PLACEHOLDER →
      (strEndsWithPy f.id "_kwargs" = true ∨
        strStartsWithPy f.id "api_key_" = false) →
      some (writeValueOf f) = o) :
    assocLookup (fs.foldl applyField cur) k = o := by
  induction fs generalizing cur with
  | nil => exact hcur
  | cons f t ih =>
    rw [List.foldl_cons]
    exact ih (applyField cur f)
      (applyField_lookup_step cur f k o hkne hcur (hf f (by simp)))
      (fun g hg => hf g (by simp [hg]))

theorem normalized_key_isSome (s : PyDict)
    (hnorm : normalize_settings s = s) (k : String) (v : Value)
    (hmem : (k, v) ∈ get_default_settings) :
    ∃ w, assocLookup s k = some w := by
  have h : assocLookup (normalize_settings s) k =
      some (normRes v (assocLookup s k)) :=
    norm_fold_char get_default_settings s k v defaults_keys_nodup hmem
  rw [hnorm] at h
  exact ⟨_, h⟩

theorem normalized_key_isSome2 (s : PyDict)
    (hnorm : normalize_settings s = s) (k : String)
    (hk : k ∈ get_default_settings.map Prod.fst) :
    ∃ w, assocLookup s k = some w := by
  rcases List.mem_map.mp hk with ⟨⟨k2, v⟩, hmem, hk2⟩
  exact hk2 ▸ normalized_key_isSome s hnorm k2 v hmem

theorem pyGet_writeback (s : PyDict) (hnorm : normalize_settings s = s)
    (k : String) (hmem : k ∈ get_default_settings.map Prod.fst) :
    some (pyGet s k) = assocLookup s k := by
  obtain ⟨w, hw⟩ := normalized_key_isSome2 s hnorm k hmem
  rw [hw]
  simp [pyGet, hw]

theorem write_settings_file_ok_shape (s : PyDict) (d : Bool) (r : PyDict)
    (h : (_write_settings_file s d).2 = .ok r) :
    r = _remove_sensitive_settings s := by
  revert h
  unfold _write_settings_file
  cases hw : _write_sensitive_settings s d with
  | mk ev err =>
    cases err with
    | none => intro h; injection h with h2; exact h2.symm
    | some e => intro h; exact Except.noConfusion h

theorem pyFalsyOpt_of_ne {c : PyDict} (h : c ≠ []) :
    pyFalsyOpt (some c) = false := by
  cases c with
  | nil => exact absurd rfl h
  | cons hd t => rfl

theorem get_settings_cached (c : PyDict) (h : c ≠ [])
    (file : Option String) (parse : String → Option PyDict) :
    get_settings (some c) file parse = .ok (normalize_settings c, some c) := by
  unfold get_settings
  rw [pyFalsyOpt_of_ne h]
  simp [pyFalsyOpt_of_ne h]

/-- C10 (amended): `set_settings` sanitizes, in place, the normalized copy
    it caches (`normalize_settings` copies the caller record first): after a
    completed `set_settings`, the cached record has `api_keys = {}` and
    empty `auth_login`, `auth_password`, `rfc_password` and `root_password`,
    and every subsequent `get_settings` serves a record with those fields
    blank; the caller record itself is not mutated. -/
theorem set_settings_sanitizes_cache (s : PyDict) (d : Bool) (c : PyDict)
    (ev : List Event) (h : set_settings s d = .ok (c, ev)) :
    assocLookup c "api_keys" = some (.vdict []) ∧
    assocLookup c "auth_login" = some (.vstr "") ∧
    assocLookup c "auth_password" = some (.vstr "") ∧
    assocLookup c "rfc_password" = some (.vstr "") ∧
    assocLookup c "root_password" = some (.vstr "") ∧
    ∀ file parse, get_settings (some c) file parse =
      .ok (normalize_settings c, some c) ∧
      assocLookup (normalize_settings c) "api_keys" = some (.vdict []) ∧
      assocLookup (normalize_settings c) "auth_login" = some (.vstr "") ∧
      assocLookup (normalize_settings c) "auth_password" = some (.vstr "") ∧
      assocLookup (normalize_settings c) "rfc_password" = some (.vstr "") ∧
      assocLookup (normalize_settings c) "root_password" =
        some (.vstr "") := by
  have hc : c = _remove_sensitive_settings (normalize_settings s) := by
    obtain ⟨n, hn⟩ : ∃ n, normalize_settings s = n := ⟨_, rfl⟩
    unfold set_settings _write_settings_file at h
    rw [hn] at h ⊢
    cases hw : _write_sensitive_settings n d with
    | mk ev2 err =>
      rw [hw] at h
      cases err with
      | some e => exact Except.noConfusion h
      | none =>
        simp only [Except.ok.injEq, Prod.mk.injEq] at h
        exact h.1.symm
  rw [hc]
  have hlk := remove_sensitive_lookups (normalize_settings s)
  have hne : _remove_sensitive_settings (normalize_settings s) ≠ [] := by
    unfold _remove_sensitive_settings
    exact assocSet_ne_nil _ _ _
  refine ⟨hlk.1, hlk.2.1, hlk.2.2.1, hlk.2.2.2.1, hlk.2.2.2.2,
    fun file parse => ⟨get_settings_cached _ hne file parse, ?_, ?_, ?_, ?_, ?_⟩⟩
  · have hchar : assocLookup
        (normalize_settings (_remove_sensitive_settings (normalize_settings s)))
        "api_keys" = some (normRes (.vdict [])
          (assocLookup (_remove_sensitive_settings (normalize_settings s))
            "api_keys")) :=
      norm_fold_char _ _ _ _ defaults_keys_nodup (by decide)
    rw [hchar, hlk.1]; rfl
  · have hchar : assocLookup
        (normalize_settings (_remove_sensitive_settings (normalize_settings s)))
        "auth_login" = some (normRes (.vstr "")
          (assocLookup (_remove_sensitive_settings (normalize_settings s))
            "auth_login")) :=
      norm_fold_char _ _ _ _ defaults_keys_nodup (by decide)
    rw [hchar, hlk.2.1]; rfl
  · have hchar : assocLookup
        (normalize_settings (_remove_sensitive_settings (normalize_settings s)))
        "auth_password" = some (normRes (.vstr "")
          (assocLookup (_remove_sensitive_settings (normalize_settings s))
            "auth_password")) :=
      norm_fold_char _ _ _ _ defaults_keys_nodup (by decide)
    rw [hchar, hlk.2.2.1]; rfl
  · have hchar : assocLookup
        (normalize_settings (_remove_sensitive_settings (normalize_settings s)))
        "rfc_password" = some (normRes (.vstr "")
          (assocLookup (_remove_sensitive_settings (normalize_settings s))
            "rfc_password")) :=
      norm_fold_char _ _ _ _ defaults_keys_nodup (by decide)
    rw [hchar, hlk.2.2.2.1]; rfl
  · have hchar : assocLookup
        (normalize_settings (_remove_sensitive_settings (normalize_settings s)))
        "root_password" = some (normRes (.vstr "")
          (assocLookup (_remove_sensitive_settings (normalize_settings s))
            "root_password")) :=
      norm_fold_char _ _ _ _ defaults_keys_nodup (by decide)
    rw [hchar, hlk.2.2.2.2]; rfl

/-- Witness for C10 (amended): a concrete run of `set_settings`. -/
theorem set_settings_sanitizes_cache_witness :
    ∃ p, set_settings c10InC false = .ok p ∧
      assocLookup p.1 "auth_password" = some (.vstr "") := by
  have hok : (set_settings c10InC false).toOption.isSome = true := by decide
  cases hset : set_settings c10InC false with
  | error e => rw [hset] at hok; simp [Except.toOption] at hok
  | ok p =>
    refine ⟨p, rfl,
      (set_settings_sanitizes_cache c10InC false p.1 p.2 ?_).2.2.1⟩
    rw [hset]

/-- C10 counterexample: the claim says `set_settings` zeroes the secret
    fields of both the cached record and the caller record; the run
    succeeds and the cached record is blanked, but the caller record is
    untouched (`normalize_settings` copies it before the in-place
    sanitization), so its `auth_password` still holds "pw". -/
theorem set_settings_caller_record_kept :
    ((set_settings c10InC false).map
        (fun r => (assocLookup r.1 "auth_password",
          assocLookup r.1 "api_keys"))).toOption =
      some (some (.vstr ""), some (.vdict [])) ∧
    assocLookup c10InC "auth_password" = some (.vstr "pw") ∧
    some (Value.vstr "pw") ≠ some (Value.vstr "") := by decide

/-- Helper for the round trip: a `*_kwargs` field whose value is the encoded
    text of the stored mapping writes back the stored mapping when the
    mapping round-trips through the codec. -/
theorem step_kwargs (s : PyDict) (f : SettingsField) (k : String)
    (hid : f.id = k)
    (hval : f.value = .vstr (kwargsText s k))
    (hends : strEndsWithPy k "_kwargs" = true)
    (d : List (String × String))
    (hd : assocLookup s k = some (.vdict (strPairsV d)))
    (hrt : _env_to_dict (_dict_to_env d) = d) :
    some (writeValueOf f) = assocLookup s k := by
  subst hid
  rw [writeValueOf_of_ends f hends, hval, hd]
  simp only [fieldText, kwargsText, getDictEntries, hd, asStrPairs_strPairsV,
    Option.getD_some, hrt]

/-- Helper for the round trip: a plain field whose value is `settings.get(k)`
    writes back exactly the stored entry when `k` is a key of the defaults
    and the record is normalized. -/
theorem step_normal (s : PyDict) (hnorm : normalize_settings s = s)
    (f : SettingsField) (k : String) (hid : f.id = k)
    (hval : f.value = pyGet s k)
    (hends : strEndsWithPy k "_kwargs" = false)
    (hmem : k ∈ get_default_settings.map Prod.fst) :
    some (writeValueOf f) = assocLookup s k := by
  subst hid
  rw [writeValueOf_of_not_ends f hends, hval]
  exact pyGet_writeback s hnorm f.id hmem

/-- C3 (amended): for every fully-normalized record `s` whose four
    `*_kwargs` mappings are string-valued and round-trip through the
    KEY=VALUE codec, `convert_in (convert_out s) s` agrees with `s` on every
    field other than the secret-bearing ones (`api_keys`, `auth_login`,
    `auth_password`, `rfc_password`, `root_password`).  Full record equality
    fails because `convert_out` renders absent API keys as empty strings
    that `convert_in` then writes into `api_keys` keyed by the full field
    id, and renders the auth and password fields from the secret store
    rather than from `s`. -/
theorem round_trip_non_secret_fields (env : RuntimeEnv) (s : PyDict)
    (hnorm : normalize_settings s = s)
    (hkw1 : ∃ d, assocLookup s "chat_model_kwargs" =
      some (.vdict (strPairsV d)) ∧ _env_to_dict (_dict_to_env d) = d)
    (hkw2 : ∃ d, assocLookup s "util_model_kwargs" =
      some (.vdict (strPairsV d)) ∧ _env_to_dict (_dict_to_env d) = d)
    (hkw3 : ∃ d, assocLookup s "embed_model_kwargs" =
      some (.vdict (strPairsV d)) ∧ _env_to_dict (_dict_to_env d) = d)
    (hkw4 : ∃ d, assocLookup s "browser_model_kwargs" =
      some (.vdict (strPairsV d)) ∧ _env_to_dict (_dict_to_env d) = d)
    (k : String) (hk : k ∉ secretKeys) :
    assocLookup (convert_in (convert_out env s) s) k = assocLookup s k := by
  have hkne : k ≠ "api_keys" := fun he => hk (by rw [he]; decide)
  unfold convert_in
  rw [convert_in_foldl_fields]
  apply applyFields_lookup _ s k (assocLookup s k) hkne rfl
  intro f hfmem
  obtain ⟨dk, dev, dot, mak, ps, ms, ks, pr⟩ := env
  cases dk <;> cases dev <;>
    simp only [convert_out, agent_fields, chat_model_fields,
      util_model_fields, embed_model_fields, browser_model_fields,
      stt_fields, api_keys_fields, auth_fields, dev_fields,
      _get_api_key_field, List.map_cons, List.map_nil, List.flatten_cons,
      List.flatten_nil, List.append_nil, List.nil_append, List.cons_append,
      Bool.false_eq_true, if_false, if_true, List.mem_cons,
      List.not_mem_nil, or_false] at hfmem <;>
    repeat' (rcases hfmem with rfl | hfmem)
  all_goals intro heq h2 h3
  all_goals dsimp only at heq h3
  all_goals subst heq
  all_goals
    first
      | (refine absurd ?_ hk; decide)
      | (refine absurd h3 ?_; decide)
      | (obtain ⟨d2, hd, hrt⟩ := hkw1;
         refine step_kwargs s _ _ rfl rfl ?_ d2 hd hrt; decide)
      | (obtain ⟨d2, hd, hrt⟩ := hkw2;
         refine step_kwargs s _ _ rfl rfl ?_ d2 hd hrt; decide)
      | (obtain ⟨d2, hd, hrt⟩ := hkw3;
         refine step_kwargs s _ _ rfl rfl ?_ d2 hd hrt; decide)
      | (obtain ⟨d2, hd, hrt⟩ := hkw4;
         refine step_kwargs s _ _ rfl rfl ?_ d2 hd hrt; decide)
      | (refine step_normal s hnorm _ _ rfl rfl ?_ ?_ <;> decide)

/-- C3 counterexample: on the default record (which is fully normalized and
    has no secrets set), the full round trip `convert_in (convert_out s) s`
    does not return `s`: `convert_out` renders each absent API key as the
    empty string and `convert_in` writes those strings back, so `api_keys`
    changes from the empty mapping to a mapping with nine
    `api_key_<provider>` entries bound to `""`. -/
theorem round_trip_fails_on_defaults :
    normalize_settings get_default_settings = get_default_settings ∧
    assocLookup get_default_settings "api_keys" = some (.vdict []) ∧
    convert_in (convert_out env0 get_default_settings)
        get_default_settings ≠ get_default_settings ∧
    assocLookup (convert_in (convert_out env0 get_default_settings)
        get_default_settings) "api_keys" =
      some (.vdict
        [("api_key_openai", .vstr ""), ("api_key_anthropic", .vstr ""),
         ("api_key_groq", .vstr ""), ("api_key_google", .vstr ""),
         ("api_key_deepseek", .vstr ""), ("api_key_openrouter", .vstr ""),
         ("api_key_sambanova", .vstr ""), ("api_key_mistralai", .vstr ""),
         ("api_key_huggingface", .vstr "")]) := by
  refine ⟨by decide, by decide, ?_, by decide⟩
  intro h
  have h2 := congrArg (fun r => assocLookup r "api_keys") h
  simp only at h2
  exact absurd h2 (by decide)

/-- Witness for the amended round trip on the default record at the
    non-secret key `chat_model_name`. -/
theorem round_trip_non_secret_fields_witness :
    assocLookup (convert_in (convert_out env0 get_default_settings)
        get_default_settings) "chat_model_name" =
      assocLookup get_default_settings "chat_model_name" :=
  round_trip_non_secret_fields env0 get_default_settings (by decide)
    ⟨[], by decide, by decide⟩ ⟨[], by decide, by decide⟩
    ⟨[], by decide, by decide⟩ ⟨[], by decide, by decide⟩
    "chat_model_name" (by decide)

/-- A masked display value is the placeholder or empty, whichever branch of
    the conditional is taken. -/
theorem vstr_ite_ph (c : Prop) [Decidable c] :
    Value.vstr (if c then PASSWORD_PLACEHOLDER else "") =
      Value.vstr PASSWORD_PLACEHOLDER ∨
    Value.vstr (if c then PASSWORD_PLACEHOLDER else "") = Value.vstr "" := by
  split
  · exact Or.inl rfl
  · exact Or.inr rfl

/-- An API key field's display value is the placeholder or empty. -/
theorem apiKeyDisplay_ph (env : RuntimeEnv) (s : PyDict) (p : String) :
    Value.vstr (apiKeyDisplay env s p) = Value.vstr PASSWORD_PLACEHOLDER ∨
    Value.vstr (apiKeyDisplay env s p) = Value.vstr "" := by
  unfold apiKeyDisplay
  split
  · exact Or.inl rfl
  · exact Or.inr rfl

/-- Dropping the `api_key_` prefix of an API key field id recovers the
    provider name. -/
theorem strDrop8_api (p : String) : strDrop8 ("api_key_" ++ p) = p := by
  show String.mk (List.drop 8 ("api_key_" ++ p).toList) = p
  have h1 : ("api_key_" ++ p).toList = "api_key_".toList ++ p.toList := rfl
  have h2 : (8 : Nat) = ("api_key_".toList).length := rfl
  rw [h1, h2, List.drop_left]
  rfl

/-- C4 (amended): every password-typed field of the schema shows the
    placeholder or the empty string, never a real secret; the set of
    password-typed fields is exactly `auth_password`, `rfc_password`,
    `root_password` and the `api_key_*` fields; `auth_password` and
    `rfc_password` show the placeholder exactly when the corresponding
    dotenv secret is truthy, an API key field shows the placeholder exactly
    when the known key is truthy and not the string "None", and
    `root_password` always shows the empty string, even when a root
    password is stored. -/
theorem password_fields_masked (env : RuntimeEnv) (s : PyDict)
    (f : SettingsField) (hf : f ∈ fieldsOf (convert_out env s))
    (hft : f.ftype = FTy.password) :
    (f.value = Value.vstr PASSWORD_PLACEHOLDER ∨ f.value = Value.vstr "") ∧
    (f.id = "auth_password" ∨ f.id = "rfc_password" ∨
      f.id = "root_password" ∨ strStartsWithPy f.id "api_key_" = true) ∧
    (f.id = "auth_password" →
      f.value = Value.vstr (if optTruthy (env.dotenv KEY_AUTH_PASSWORD)
        then PASSWORD_PLACEHOLDER else "")) ∧
    (f.id = "rfc_password" →
      f.value = Value.vstr (if optTruthy (env.dotenv KEY_RFC_PASSWORD)
        then PASSWORD_PLACEHOLDER else "")) ∧
    (f.id = "root_password" → f.value = Value.vstr "") ∧
    (strStartsWithPy f.id "api_key_" = true →
      f.value = Value.vstr (apiKeyDisplay env s (strDrop8 f.id))) := by
  obtain ⟨dk, dev, dot, mak, ps, ms, ks, pr⟩ := env
  cases dk <;> cases dev <;>
    simp only [convert_out, fieldsOf, agent_fields, chat_model_fields,
      util_model_fields, embed_model_fields, browser_model_fields,
      stt_fields, api_keys_fields, auth_fields, dev_fields,
      _get_api_key_field, List.map_cons, List.map_nil, List.flatten_cons,
      List.flatten_nil, List.append_nil, List.nil_append, List.cons_append,
      Bool.false_eq_true, if_false, if_true, List.mem_cons,
      List.not_mem_nil, or_false] at hf <;>
    repeat' (rcases hf with rfl | hf)
  all_goals dsimp only at hft ⊢
  all_goals
    first
      | (refine absurd hft ?_; decide)
      | (refine ⟨vstr_ite_ph _, Or.inl rfl, fun h3 => rfl,
          fun h4 => absurd h4 ?_, fun h5 => absurd h5 ?_,
          fun h6 => absurd h6 ?_⟩ <;> decide)
      | (refine ⟨vstr_ite_ph _, Or.inr (Or.inl rfl),
          fun h3 => absurd h3 ?_, fun h4 => rfl,
          fun h5 => absurd h5 ?_, fun h6 => absurd h6 ?_⟩ <;> decide)
      | (refine ⟨Or.inr rfl, Or.inr (Or.inr (Or.inl rfl)),
          fun h3 => absurd h3 ?_, fun h4 => absurd h4 ?_,
          fun h5 => rfl, fun h6 => absurd h6 ?_⟩ <;> decide)
      | (refine ⟨apiKeyDisplay_ph _ _ _, Or.inr (Or.inr (Or.inr ?_)),
          fun h3 => absurd h3 ?_, fun h4 => absurd h4 ?_,
          fun h5 => absurd h5 ?_, fun h6 => ?_⟩ <;> try decide;
         rw [strDrop8_api])

/-- C4 counterexample: in a dockerized environment whose secret store holds
    the non-empty, non-"None" root password "x", the schema's
    `root_password` field still renders the empty string, not the
    placeholder, so "value is the placeholder token if a non-empty,
    non-None secret currently exists" is false for the root password
    field. -/
theorem root_password_not_placeholder :
    optTruthy (envRootSecret.dotenv KEY_ROOT_PASSWORD) = true ∧
    envRootSecret.dotenv KEY_ROOT_PASSWORD = some "x" ∧
    ({ id := "root_password", ftype := FTy.password, value := Value.vstr "" }
        : SettingsField) ∈
      fieldsOf (convert_out envRootSecret get_default_settings) ∧
    (∀ f ∈ fieldsOf (convert_out envRootSecret get_default_settings),
      f.id = "root_password" →
        f.value ≠ Value.vstr PASSWORD_PLACEHOLDER) := by
  refine ⟨rfl, rfl, by decide, by decide⟩

/-- Witness for the masking theorem at the root password field of the
    dockerized environment with a stored root password. -/
theorem password_fields_masked_witness :
    (({ id := "root_password", ftype := FTy.password, value := Value.vstr "" }
        : SettingsField).value = Value.vstr PASSWORD_PLACEHOLDER ∨
      ({ id := "root_password", ftype := FTy.password,
          value := Value.vstr "" } : SettingsField).value =
        Value.vstr "") :=
  (password_fields_masked envRootSecret get_default_settings
    { id := "root_password", ftype := FTy.password, value := Value.vstr "" }
    (by decide) rfl).1
